import Mathlib

/-!
Verification of the image <-> OpenCV `Mat` conversion layer
(`src/cv-convert/src/with_opencv_image.rs`).

The Rust code is shallowly embedded as follows.

* Scalar subpixel values (`u8`, `u16`, `f32`) are modelled as raw `Nat` bit
  patterns: the conversion layer only ever moves them around bit-for-bit, it
  never computes with them, so only their identity matters.
* `cv::Mat` is modelled by the `Mat` structure below, following the matrix
  capability set described by the spec: `rows`/`cols` (`i32`, both `-1` when
  the dimensionality is not 2), a runtime `depth` tag, a channel count, a
  flat row-major channel-interleaved scalar store, and a contiguity flag
  governing whether the typed contiguous-slice view is available.
* `image::ImageBuffer<P, Container>` is modelled by `ImageBuffer`: the pixel
  type parameter `P` becomes the `channels`/`depth` fields (the registry
  mapping `P::CHANNEL_COUNT` / `P::Subpixel::DEPTH`), and the backing
  container is a flat row-major interleaved scalar list.
* Fallible Rust functions return `Except ConvError`; a Rust panic (an
  `unwrap` failing inside the decode helpers) is modelled by `Option`,
  `none` meaning the helper panics.
* The `u32 -> i32` and `i32 -> u32` casts at the Rust boundaries are
  modelled exactly (two's-complement reinterpretation) by `asI32`/`asU32`.
* OpenCV allocation (`Mat::zeros(..)?.to_mat()?`) can fail for environmental
  reasons; that environment is modelled by an explicit `alloc : Bool` oracle
  threaded through the encoders.
-/

/-- OpenCV depth tag `CV_8U`. -/
def CV_8U : Int := 0

/-- OpenCV depth tag `CV_8S`. -/
def CV_8S : Int := 1

/-- OpenCV depth tag `CV_16U`. -/
def CV_16U : Int := 2

/-- OpenCV depth tag `CV_16S`. -/
def CV_16S : Int := 3

/-- OpenCV depth tag `CV_32S`. -/
def CV_32S : Int := 4

/-- OpenCV depth tag `CV_32F`. -/
def CV_32F : Int := 5

/-- OpenCV depth tag `CV_64F`. -/
def CV_64F : Int := 6

/-- Byte width of a scalar of the given depth tag (`std::mem::size_of::<T>()`
for the element type the tag stands for). -/
def sizeOfDepth (d : Int) : Nat :=
  if d = CV_8U then 1
  else if d = CV_8S then 1
  else if d = CV_16U then 2
  else if d = CV_16S then 2
  else if d = CV_32S then 4
  else if d = CV_32F then 4
  else if d = CV_64F then 8
  else 2

/-- Name of a depth tag, as it appears inside an OpenCV type name. -/
def depthName (d : Int) : String :=
  if d = CV_8U then "CV_8U"
  else if d = CV_8S then "CV_8S"
  else if d = CV_16U then "CV_16U"
  else if d = CV_16S then "CV_16S"
  else if d = CV_32S then "CV_32S"
  else if d = CV_32F then "CV_32F"
  else if d = CV_64F then "CV_64F"
  else "CV_16F"

/-- Rust `u32 as i32`: two's-complement reinterpretation of a 32-bit value. -/
def asI32 (n : Nat) : Int :=
  ((n % 2 ^ 32 : Nat) : Int) - (if n % 2 ^ 32 < 2 ^ 31 then 0 else 2 ^ 32)

/-- Rust `i32 as u32`: two's-complement reinterpretation of a 32-bit value. -/
def asU32 (i : Int) : Nat := (i % 2 ^ 32).toNat

/-- Model of `cv::Mat` (the matrix capability set consumed by the conversion
layer): `rows` and `cols` are the `i32` values reported by OpenCV (both `-1`
when the matrix does not have exactly 2 dimensions), `depth` is the runtime
element-type tag, `channels` the runtime channel count, `data` the scalar
store in row-major channel-interleaved order, and `contiguous` records
whether the storage is contiguous (so the typed slice view is available). -/
structure Mat where
  rows : Int
  cols : Int
  depth : Int
  channels : Nat
  data : List Nat
  contiguous : Bool
deriving DecidableEq, Repr

/-- Well-formedness of a `Mat`, as guaranteed by OpenCV itself: `rows`/`cols`
are genuine `i32` values that are either both `-1` (dimensionality other
than 2) or both non-negative, and for a 2-dimensional matrix the scalar
store has exactly `rows * cols * channels` entries. -/
def Mat.wf (m : Mat) : Prop :=
  ((m.rows = -1 ∧ m.cols = -1) ∨ (0 ≤ m.rows ∧ 0 ≤ m.cols)) ∧
  m.rows < 2 ^ 31 ∧ m.cols < 2 ^ 31 ∧
  (0 ≤ m.rows → m.data.length = m.rows.toNat * m.cols.toNat * m.channels)

instance (m : Mat) : Decidable m.wf := by
  unfold Mat.wf; infer_instance

/-- Scalar of channel `ch` of the matrix element at `(row, col)` (row-major,
channel-interleaved layout, 2-dimensional matrices). -/
def Mat.elem (m : Mat) (row col ch : Nat) : Nat :=
  m.data.getD ((row * m.cols.toNat + col) * m.channels + ch) 0

/-- Modelled from the spec: the typed contiguous-slice view of the matrix
storage (`MatExt::as_slice` of `with_opencv.rs`, which is not under `src/`).
Per the spec it succeeds only if the storage is contiguous and the element
type is correct, i.e. the matrix's depth tag is the tag of the requested
element type; it then exposes the whole scalar store as one flat slice. -/
def Mat.as_slice (m : Mat) (d : Int) : Option (List Nat) :=
  if m.contiguous = true ∧ m.depth = d then some m.data else none

/-- Modelled from the spec: per-element random access `Mat::at_2d::<T>` for a
scalar type `T` of depth tag `d` (an external OpenCV capability). It errors
(here: `none`) unless `(row, col)` is within bounds and the matrix has type
`T` exactly (depth `d`, one channel); otherwise it reads the scalar stored
at `(row, col)`. -/
def Mat.at_2d_gray (m : Mat) (d : Int) (row col : Int) : Option Nat :=
  if 0 ≤ row ∧ row < m.rows ∧ 0 ≤ col ∧ col < m.cols ∧ m.depth = d ∧ m.channels = 1 then
    m.data[(row * m.cols + col).toNat]?
  else none

/-- Modelled from the spec: per-element random access `Mat::at_2d::<Point3_<T>>`
for a 3-channel element of scalar depth tag `d` (an external OpenCV
capability). It errors (here: `none`) unless `(row, col)` is within bounds
and the matrix has 3 channels of depth `d`; otherwise it reads the three
interleaved scalars `(x, y, z)` stored at `(row, col)`. -/
def Mat.at_2d_rgb (m : Mat) (d : Int) (row col : Int) : Option (Nat × Nat × Nat) :=
  if 0 ≤ row ∧ row < m.rows ∧ 0 ≤ col ∧ col < m.cols ∧ m.depth = d ∧ m.channels = 3 then
    match m.data[(row * m.cols + col).toNat * 3]?,
          m.data[(row * m.cols + col).toNat * 3 + 1]?,
          m.data[(row * m.cols + col).toNat * 3 + 2]? with
    | some x, some y, some z => some (x, y, z)
    | _, _, _ => none
  else none

/-- Model of the OpenCV type name reported by `MatExt::type_name` (not under
`src/`); per the spec the unsupported-combination error "names the observed
depth and channel count", which is what the OpenCV type name
(e.g. `CV_8UC3`) does. -/
def Mat.type_name (m : Mat) : String :=
  depthName m.depth ++ "C" ++ toString m.channels

/-- Model of `image::ImageBuffer<P, Container>`: `channels` is
`P::CHANNEL_COUNT`, `depth` is `P::Subpixel::DEPTH` (the registry mapping of
the subpixel type to its OpenCV depth tag), and `data` is the flat row-major
channel-interleaved backing store (`as_raw`). -/
structure ImageBuffer where
  width : Nat
  height : Nat
  channels : Nat
  depth : Int
  data : List Nat
deriving DecidableEq, Repr

/-- Invariant of `image::ImageBuffer` (spec section 3): the backing store has
exactly `width * height * channels` scalars. -/
def ImageBuffer.wf (b : ImageBuffer) : Prop :=
  b.data.length = b.width * b.height * b.channels

instance (b : ImageBuffer) : Decidable b.wf := by
  unfold ImageBuffer.wf; infer_instance

/-- Scalar of channel `ch` of the buffer pixel at image coordinate `(x, y)`
(row-major, channel-interleaved backing store). -/
def ImageBuffer.subpixel (b : ImageBuffer) (x y ch : Nat) : Nat :=
  b.data.getD ((y * b.width + x) * b.channels + ch) 0

/-- Model of `image::ImageBuffer::from_vec` (external collaborator): succeeds
iff the container holds at least `width * height * channels` scalars. -/
def ImageBuffer.from_vec (channels : Nat) (depth : Int) (width height : Nat)
    (buf : List Nat) : Option ImageBuffer :=
  if width * height * channels ≤ buf.length then
    some { width := width, height := height, channels := channels, depth := depth, data := buf }
  else none

/-- Traversal of a list under a fallible function: `some` of the image list
if every application succeeds, `none` as soon as one fails. Used to model a
per-pixel closure that can panic (`unwrap`) inside `ImageBuffer::from_fn`. -/
def traverseOption {α β : Type} (f : α → Option β) : List α → Option (List β)
  | [] => some []
  | x :: xs =>
    match f x, traverseOption f xs with
    | some y, some ys => some (y :: ys)
    | _, _ => none

/-- Model of `image::ImageBuffer::from_fn` for a single-channel pixel kind:
pixel `i` (row-major) is at image coordinate `(i % width, i / width)` and is
produced by the closure; a `none` from the closure models the closure
panicking. -/
def ImageBuffer.from_fn_gray (depth : Int) (width height : Nat)
    (f : Nat → Nat → Option Nat) : Option ImageBuffer :=
  (traverseOption (fun i => f (i % width) (i / width)) (List.range (width * height))).map
    (fun pix =>
      { width := width, height := height, channels := 1, depth := depth, data := pix })

/-- Model of `image::ImageBuffer::from_fn` for a 3-channel pixel kind: the
backing store interleaves the 3-scalar tuple of each pixel in row-major
pixel order. -/
def ImageBuffer.from_fn_rgb (depth : Int) (width height : Nat)
    (f : Nat → Nat → Option (Nat × Nat × Nat)) : Option ImageBuffer :=
  (traverseOption (fun i => f (i % width) (i / width)) (List.range (width * height))).map
    (fun pix =>
      { width := width, height := height, channels := 3, depth := depth,
        data := (pix.map (fun p => [p.1, p.2.1, p.2.2])).flatten })

/-- Errors produced by the conversion layer, one constructor per distinct
`bail!`/`ensure!` site of the source (plus the opaque OpenCV error
surfaced by `?` on allocation). -/
inductive ConvError where
  | dimensionality
  | grayChannelMismatch
  | rgbChannelMismatch (observed : Nat)
  | depthMismatch
  | unsupportedType (typeName : String)
  | unsupportedColor (color : String)
  | allocation
deriving DecidableEq, Repr

/-- Message carried by each error, exactly the format strings of the source's
`bail!`/`ensure!` calls. -/
def ConvError.message : ConvError → String
  | .dimensionality => "Mat with more than 2 dimensions is not supported."
  | .grayChannelMismatch => "Unable to convert a multi-channel Mat to a gray image"
  | .rgbChannelMismatch observed =>
      "Expect 3 channels, but get " ++ toString observed ++ " channels"
  | .depthMismatch => "Subpixel type is not supported"
  | .unsupportedType typeName => "Mat of type " ++ typeName ++ " is not supported"
  | .unsupportedColor color => "the color type " ++ color ++ " is not supported"
  | .allocation => "OpenCV allocation failure"

deriving instance DecidableEq for Except

/-- Modelled from the spec: zero-initialized matrix allocation
(`cv::Mat::zeros(rows, cols, type)?.to_mat()?`, an external OpenCV
capability). It fails if the environment's allocation fails (the `alloc`
oracle) or the requested size is invalid, and otherwise yields a fresh
contiguous all-zero matrix of the requested dimensions and type. -/
def Mat.zeros (alloc : Bool) (rows cols : Int) (depth : Int) (channels : Nat) :
    Except ConvError Mat :=
  if alloc = true then
    if 0 ≤ rows ∧ 0 ≤ cols then
      .ok { rows := rows, cols := cols, depth := depth, channels := channels,
            data := List.replicate (rows.toNat * cols.toNat * channels) 0,
            contiguous := true }
    else .error .allocation
  else .error .allocation

/-- Embedding of `impl TryToCv<cv::Mat> for image::ImageBuffer` (`&ImageBuffer
-> Mat`): read `(width, height)`, build the matrix type from
`P::Subpixel::DEPTH` and `P::CHANNEL_COUNT`, allocate a zero-initialized
matrix, then copy `width * height * channels * size_of::<T>()` bytes from
the buffer's backing store into the matrix storage. Both stores use the
same contiguous interleaved layout, so the byte copy is modelled at scalar
granularity: it overwrites the first `total_bytes / size_of::<T>()` scalars
of the zeroed store. -/
def ImageBuffer.try_to_cv (self : ImageBuffer) (alloc : Bool) : Except ConvError Mat :=
  match Mat.zeros alloc (asI32 self.height) (asI32 self.width) self.depth self.channels with
  | .error e => .error e
  | .ok mat =>
    .ok { mat with data := self.data.take (self.width * self.height * self.channels * sizeOfDepth self.depth / sizeOfDepth self.depth) ++ mat.data.drop (self.width * self.height * self.channels * sizeOfDepth self.depth / sizeOfDepth self.depth) }

/-- Fallback (element-wise) path of `mat_to_image_buffer_gray`: build the
buffer pixel by pixel with `ImageBuffer::from_fn`, reading each pixel with
`mat.at_2d(row as i32, col as i32).unwrap()`. -/
def mat_gray_fallback (d : Int) (m : Mat) (width height : Nat) : Option ImageBuffer :=
  ImageBuffer.from_fn_gray d width height
    (fun col row => m.at_2d_gray d (asI32 row) (asI32 col))

/-- Embedding of `mat_to_image_buffer_gray::<T>` where `d` is `T::DEPTH`: try
the typed contiguous-slice view; on success bulk-copy it into the buffer
(`from_vec(..).unwrap()`), otherwise fall back to element-wise reads. The
`Option` result is `none` iff the Rust code would panic. -/
def mat_to_image_buffer_gray (d : Int) (m : Mat) (width height : Nat) : Option ImageBuffer :=
  match m.as_slice d with
  | some slice => ImageBuffer.from_vec 1 d width height slice
  | none => mat_gray_fallback d m width height

/-- Fallback (element-wise) path of `mat_to_image_buffer_rgb`: build the
buffer pixel by pixel with `ImageBuffer::from_fn`, reading each
`Point3_ { x, y, z }` with `mat.at_2d(row as i32, col as i32).unwrap()`. -/
def mat_rgb_fallback (d : Int) (m : Mat) (width height : Nat) : Option ImageBuffer :=
  ImageBuffer.from_fn_rgb d width height
    (fun col row => m.at_2d_rgb d (asI32 row) (asI32 col))

/-- Embedding of `mat_to_image_buffer_rgb::<T>` where `d` is `T::DEPTH`: try
the typed contiguous-slice view; on success bulk-copy it into the buffer
(`from_vec(..).unwrap()`), otherwise fall back to element-wise reads. The
`Option` result is `none` iff the Rust code would panic. -/
def mat_to_image_buffer_rgb (d : Int) (m : Mat) (width height : Nat) : Option ImageBuffer :=
  match m.as_slice d with
  | some slice => ImageBuffer.from_vec 3 d width height slice
  | none => mat_rgb_fallback d m width height

/-- Embedding of `impl TryToCv<ImageBuffer<Luma<T>>> for cv::Mat` (`&Mat ->
gray ImageBuffer`), `d` being `T::DEPTH`: check dimensionality, then the
channel count, then the depth, in this order, each failure with its own
error; then delegate to `mat_to_image_buffer_gray`. An `ok none` result
models the helper panicking. -/
def Mat.try_to_cv_gray (m : Mat) (d : Int) : Except ConvError (Option ImageBuffer) :=
  if m.rows ≠ -1 ∧ m.cols ≠ -1 then
    if m.channels = 1 then
      if m.depth = d then .ok (mat_to_image_buffer_gray d m (asU32 m.cols) (asU32 m.rows))
      else .error .depthMismatch
    else .error .grayChannelMismatch
  else .error .dimensionality

/-- Embedding of `impl TryToCv<ImageBuffer<Rgb<T>>> for cv::Mat` (`&Mat ->
rgb ImageBuffer`), `d` being `T::DEPTH`: check dimensionality, then the
channel count, then the depth, in this order, each failure with its own
error; then delegate to `mat_to_image_buffer_rgb`. An `ok none` result
models the helper panicking. -/
def Mat.try_to_cv_rgb (m : Mat) (d : Int) : Except ConvError (Option ImageBuffer) :=
  if m.rows ≠ -1 ∧ m.cols ≠ -1 then
    if m.channels = 3 then
      if m.depth = d then .ok (mat_to_image_buffer_rgb d m (asU32 m.cols) (asU32 m.rows))
      else .error .depthMismatch
    else .error (.rgbChannelMismatch m.channels)
  else .error .dimensionality

/-- Model of `image::DynamicImage`: the ten enumerated variants matched by
the source's `DynamicImage -> Mat` conversion, each owning the buffer of
the matching pixel kind, plus `otherColor` for any other active variant of
the non-exhaustive upstream enum (hit by the source's wildcard match arm,
which reports the variant's color type). -/
inductive DynamicImage where
  | luma8 (img : ImageBuffer)
  | lumaA8 (img : ImageBuffer)
  | rgb8 (img : ImageBuffer)
  | rgba8 (img : ImageBuffer)
  | luma16 (img : ImageBuffer)
  | lumaA16 (img : ImageBuffer)
  | rgb16 (img : ImageBuffer)
  | rgba16 (img : ImageBuffer)
  | rgb32f (img : ImageBuffer)
  | rgba32f (img : ImageBuffer)
  | otherColor (color : String)
deriving DecidableEq, Repr

/-- Embedding of `impl TryToCv<cv::Mat> for image::DynamicImage`: match on
the active variant and delegate the owned buffer to the `ImageBuffer`
encoder; any other variant fails with the color-type-not-supported error. -/
def DynamicImage.try_to_cv (self : DynamicImage) (alloc : Bool) : Except ConvError Mat :=
  match self with
  | .luma8 img => img.try_to_cv alloc
  | .lumaA8 img => img.try_to_cv alloc
  | .rgb8 img => img.try_to_cv alloc
  | .rgba8 img => img.try_to_cv alloc
  | .luma16 img => img.try_to_cv alloc
  | .lumaA16 img => img.try_to_cv alloc
  | .rgb16 img => img.try_to_cv alloc
  | .rgba16 img => img.try_to_cv alloc
  | .rgb32f img => img.try_to_cv alloc
  | .rgba32f img => img.try_to_cv alloc
  | .otherColor color => .error (.unsupportedColor color)

/-- Embedding of `impl TryToCv<image::DynamicImage> for cv::Mat`
(`decode_dynamic`): check dimensionality, then dispatch on the matrix's
`(depth, channels)` pair over the five enumerated supported pairs, wrapping
the typed decode helper's result in the matching variant; any other pair
fails with the unsupported-type error naming the matrix type. An `ok none`
result models the helper panicking. -/
def Mat.try_to_cv_dynamic (m : Mat) : Except ConvError (Option DynamicImage) :=
  if m.rows ≠ -1 ∧ m.cols ≠ -1 then
    if m.depth = CV_8U ∧ m.channels = 1 then
      .ok ((mat_to_image_buffer_gray CV_8U m (asU32 m.cols) (asU32 m.rows)).map DynamicImage.luma8)
    else if m.depth = CV_16U ∧ m.channels = 1 then
      .ok ((mat_to_image_buffer_gray CV_16U m (asU32 m.cols) (asU32 m.rows)).map DynamicImage.luma16)
    else if m.depth = CV_8U ∧ m.channels = 3 then
      .ok ((mat_to_image_buffer_rgb CV_8U m (asU32 m.cols) (asU32 m.rows)).map DynamicImage.rgb8)
    else if m.depth = CV_16U ∧ m.channels = 3 then
      .ok ((mat_to_image_buffer_rgb CV_16U m (asU32 m.cols) (asU32 m.rows)).map DynamicImage.rgb16)
    else if m.depth = CV_32F ∧ m.channels = 3 then
      .ok ((mat_to_image_buffer_rgb CV_32F m (asU32 m.cols) (asU32 m.rows)).map DynamicImage.rgb32f)
    else .error (.unsupportedType m.type_name)
  else .error .dimensionality

/-- The five `(depth, channels)` pairs enumerated by the `Mat -> DynamicImage`
dispatch. -/
def dynSupported (depth : Int) (channels : Nat) : Prop :=
  (depth = CV_8U ∧ channels = 1) ∨ (depth = CV_16U ∧ channels = 1) ∨
  (depth = CV_8U ∧ channels = 3) ∨ (depth = CV_16U ∧ channels = 3) ∨
  (depth = CV_32F ∧ channels = 3)

instance (depth : Int) (channels : Nat) : Decidable (dynSupported depth channels) := by
  unfold dynSupported; infer_instance

/-- Dimension bounds under which the buffer owned by a `DynamicImage` variant
fits OpenCV's `i32` dimensions (`u32 as i32` does not wrap). -/
def DynamicImage.dimsOk : DynamicImage → Prop
  | .luma8 img => img.width < 2 ^ 31 ∧ img.height < 2 ^ 31
  | .lumaA8 img => img.width < 2 ^ 31 ∧ img.height < 2 ^ 31
  | .rgb8 img => img.width < 2 ^ 31 ∧ img.height < 2 ^ 31
  | .rgba8 img => img.width < 2 ^ 31 ∧ img.height < 2 ^ 31
  | .luma16 img => img.width < 2 ^ 31 ∧ img.height < 2 ^ 31
  | .lumaA16 img => img.width < 2 ^ 31 ∧ img.height < 2 ^ 31
  | .rgb16 img => img.width < 2 ^ 31 ∧ img.height < 2 ^ 31
  | .rgba16 img => img.width < 2 ^ 31 ∧ img.height < 2 ^ 31
  | .rgb32f img => img.width < 2 ^ 31 ∧ img.height < 2 ^ 31
  | .rgba32f img => img.width < 2 ^ 31 ∧ img.height < 2 ^ 31
  | .otherColor _ => True

/-- Constructor index of a `DynamicImage` variant (which pixel-kind/depth
combination is active). -/
def DynamicImage.kindIndex : DynamicImage → Nat
  | .luma8 _ => 0
  | .lumaA8 _ => 1
  | .rgb8 _ => 2
  | .rgba8 _ => 3
  | .luma16 _ => 4
  | .lumaA16 _ => 5
  | .rgb16 _ => 6
  | .rgba16 _ => 7
  | .rgb32f _ => 8
  | .rgba32f _ => 9
  | .otherColor _ => 10

/-- One minimal (1 x 1) well-formed sample image per enumerated variant of
the `DynamicImage -> Mat` match. -/
def DynamicImage.samples : List DynamicImage :=
  [ .luma8 { width := 1, height := 1, channels := 1, depth := CV_8U, data := [7] },
    .lumaA8 { width := 1, height := 1, channels := 2, depth := CV_8U, data := [7, 8] },
    .rgb8 { width := 1, height := 1, channels := 3, depth := CV_8U, data := [7, 8, 9] },
    .rgba8 { width := 1, height := 1, channels := 4, depth := CV_8U, data := [7, 8, 9, 10] },
    .luma16 { width := 1, height := 1, channels := 1, depth := CV_16U, data := [7] },
    .lumaA16 { width := 1, height := 1, channels := 2, depth := CV_16U, data := [7, 8] },
    .rgb16 { width := 1, height := 1, channels := 3, depth := CV_16U, data := [7, 8, 9] },
    .rgba16 { width := 1, height := 1, channels := 4, depth := CV_16U, data := [7, 8, 9, 10] },
    .rgb32f { width := 1, height := 1, channels := 3, depth := CV_32F, data := [7, 8, 9] },
    .rgba32f { width := 1, height := 1, channels := 4, depth := CV_32F, data := [7, 8, 9, 10] } ]

/-! Basic facts about the casts, the registry, and the list plumbing. -/

theorem asI32_eq_of_lt {n : Nat} (h : n < 2 ^ 31) : asI32 n = (n : Int) := by
  unfold asI32
  have h2 : n % 2 ^ 32 = n := Nat.mod_eq_of_lt (by omega)
  rw [h2, if_pos h]
  simp

theorem asU32_eq_toNat {i : Int} (h0 : 0 ≤ i) (h : i < 2 ^ 31) : asU32 i = i.toNat := by
  unfold asU32
  omega

theorem sizeOfDepth_pos (d : Int) : 0 < sizeOfDepth d := by
  unfold sizeOfDepth
  split_ifs <;> omega

theorem traverseOption_eq_some_map {α β : Type} (f : α → Option β) (g : α → β) :
    ∀ l : List α, (∀ x ∈ l, f x = some (g x)) → traverseOption f l = some (l.map g) := by
  intro l
  induction l with
  | nil => intro _; rfl
  | cons x xs ih =>
    intro h
    have hx : f x = some (g x) := h x (List.mem_cons_self x xs)
    have hxs : traverseOption f xs = some (xs.map g) :=
      ih (fun y hy => h y (List.mem_cons_of_mem x hy))
    unfold traverseOption
    rw [hx, hxs]
    rfl

theorem map_getD_range {α : Type} (l : List α) (a : α) :
    (List.range l.length).map (fun i => l.getD i a) = l := by
  apply List.ext_getElem
  · simp
  · intro i h1 h2
    simp [List.getD_eq_getElem l a h2, List.getElem?_eq_getElem h2]

theorem getD_cons3 {α : Type} (x y z : α) (l : List α) (n : Nat) (a : α) :
    (x :: y :: z :: l).getD (n + 3) a = l.getD n a := by
  show (x :: y :: z :: l).getD (n + 1 + 1 + 1) a = l.getD n a
  rw [List.getD_cons_succ, List.getD_cons_succ, List.getD_cons_succ]

theorem flatten_triples {α : Type} :
    ∀ (n : Nat) (l : List α) (a : α), l.length = 3 * n →
      ((List.range n).map
        (fun i => [l.getD (i * 3) a, l.getD (i * 3 + 1) a, l.getD (i * 3 + 2) a])).flatten = l := by
  intro n
  induction n with
  | zero =>
    intro l a h
    have hnil : l = [] := List.eq_nil_of_length_eq_zero (by omega)
    subst hnil
    rfl
  | succ k ih =>
    intro l a h
    rcases l with _ | ⟨x, l⟩
    · simp only [List.length_nil] at h; omega
    rcases l with _ | ⟨y, l⟩
    · simp only [List.length_cons, List.length_nil] at h; omega
    rcases l with _ | ⟨z, l⟩
    · simp only [List.length_cons, List.length_nil] at h; omega
    have hrest : l.length = 3 * k := by
      simp only [List.length_cons] at h
      omega
    rw [List.range_succ_eq_map]
    simp only [List.map_cons, List.map_map, List.flatten_cons]
    have hfun : ((fun i => [(x :: y :: z :: l).getD (i * 3) a, (x :: y :: z :: l).getD (i * 3 + 1) a,
        (x :: y :: z :: l).getD (i * 3 + 2) a]) ∘ Nat.succ)
        = (fun i => [l.getD (i * 3) a, l.getD (i * 3 + 1) a, l.getD (i * 3 + 2) a]) := by
      funext i
      simp only [Function.comp_apply]
      rw [show Nat.succ i * 3 = i * 3 + 3 by omega,
          show i * 3 + 3 + 1 = i * 3 + 1 + 3 by omega,
          show i * 3 + 3 + 2 = i * 3 + 2 + 3 by omega,
          getD_cons3, getD_cons3, getD_cons3]
    rw [hfun, ih l a hrest]
    rfl

/-! Equational characterisations of the embedded operations. -/

theorem Mat.zeros_ok (rows cols d : Int) (c : Nat) (h1 : 0 ≤ rows) (h2 : 0 ≤ cols) :
    Mat.zeros true rows cols d c =
      .ok { rows := rows, cols := cols, depth := d, channels := c,
            data := List.replicate (rows.toNat * cols.toNat * c) 0, contiguous := true } := by
  unfold Mat.zeros
  rw [if_pos rfl, if_pos ⟨h1, h2⟩]

theorem ImageBuffer.try_to_cv_eq (b : ImageBuffer) (hwf : b.wf)
    (hw : b.width < 2 ^ 31) (hh : b.height < 2 ^ 31) :
    b.try_to_cv true =
      .ok { rows := (b.height : Int), cols := (b.width : Int), depth := b.depth,
            channels := b.channels, data := b.data, contiguous := true } := by
  have hlen : b.data.length = b.width * b.height * b.channels := hwf
  unfold ImageBuffer.try_to_cv
  rw [asI32_eq_of_lt hh, asI32_eq_of_lt hw,
      Mat.zeros_ok _ _ _ _ (Int.natCast_nonneg _) (Int.natCast_nonneg _)]
  simp only [Int.toNat_natCast]
  rw [Nat.mul_div_cancel _ (sizeOfDepth_pos b.depth)]
  rw [List.drop_eq_nil_of_le (by rw [List.length_replicate]; exact le_of_eq (by ring))]
  rw [List.append_nil, ← hlen, List.take_length]

theorem ImageBuffer.try_to_cv_isOk (b : ImageBuffer)
    (hw : b.width < 2 ^ 31) (hh : b.height < 2 ^ 31) :
    ∃ m, b.try_to_cv true = .ok m := by
  unfold ImageBuffer.try_to_cv
  rw [asI32_eq_of_lt hh, asI32_eq_of_lt hw,
      Mat.zeros_ok _ _ _ _ (Int.natCast_nonneg _) (Int.natCast_nonneg _)]
  exact ⟨_, rfl⟩

theorem ImageBuffer.try_to_cv_alloc_fail (b : ImageBuffer) :
    b.try_to_cv false = .error .allocation := rfl

theorem mat_gray_fallback_eq (d : Int) (m : Mat) (w h : Nat)
    (hch : m.channels = 1) (hd : m.depth = d)
    (hr : m.rows = (h : Int)) (hc : m.cols = (w : Int))
    (hw : w < 2 ^ 31) (hh : h < 2 ^ 31)
    (hlen : m.data.length = h * w * 1) :
    mat_gray_fallback d m w h =
      some { width := w, height := h, channels := 1, depth := d, data := m.data } := by
  unfold mat_gray_fallback ImageBuffer.from_fn_gray
  have hmain : traverseOption (fun i => m.at_2d_gray d (asI32 (i / w)) (asI32 (i % w)))
      (List.range (w * h))
      = some ((List.range (w * h)).map (fun i => m.data.getD i 0)) := by
    apply traverseOption_eq_some_map
    intro i hi
    rw [List.mem_range] at hi
    have hwpos : 0 < w := by
      rcases Nat.eq_zero_or_pos w with h0 | h0
      · subst h0; simp at hi
      · exact h0
    have hdiv : i / w < h := Nat.div_lt_of_lt_mul hi
    have hmod : i % w < w := Nat.mod_lt _ hwpos
    rw [asI32_eq_of_lt (by omega), asI32_eq_of_lt (by omega)]
    unfold Mat.at_2d_gray
    have hcond : 0 ≤ ((i / w : Nat) : Int) ∧ ((i / w : Nat) : Int) < m.rows ∧
        0 ≤ ((i % w : Nat) : Int) ∧ ((i % w : Nat) : Int) < m.cols ∧
        m.depth = d ∧ m.channels = 1 := by
      refine ⟨Int.natCast_nonneg _, ?_, Int.natCast_nonneg _, ?_, hd, hch⟩
      · rw [hr]; exact_mod_cast hdiv
      · rw [hc]; exact_mod_cast hmod
    rw [if_pos hcond]
    have hidx : (((i / w : Nat) : Int) * m.cols + ((i % w : Nat) : Int)).toNat = i := by
      rw [hc]
      have hcast : (((i / w : Nat) : Int) * ((w : Nat) : Int) + ((i % w : Nat) : Int))
          = ((i / w * w + i % w : Nat) : Int) := by push_cast; ring
      rw [hcast, Int.toNat_natCast]
      rw [Nat.mul_comm]
      exact Nat.div_add_mod i w
    rw [hidx]
    have hil : i < m.data.length := by
      rw [hlen]
      calc i < w * h := hi
      _ = h * w * 1 := by ring
    rw [List.getElem?_eq_getElem hil, List.getD_eq_getElem m.data 0 hil]
  rw [hmain]
  simp only [Option.map_some']
  have hlen' : m.data.length = w * h := by rw [hlen]; ring
  rw [show List.range (w * h) = List.range m.data.length by rw [hlen'], map_getD_range]

theorem mat_to_image_buffer_gray_eq (d : Int) (m : Mat) (w h : Nat)
    (hch : m.channels = 1) (hd : m.depth = d)
    (hr : m.rows = (h : Int)) (hc : m.cols = (w : Int))
    (hw : w < 2 ^ 31) (hh : h < 2 ^ 31)
    (hlen : m.data.length = h * w * 1) :
    mat_to_image_buffer_gray d m w h =
      some { width := w, height := h, channels := 1, depth := d, data := m.data } := by
  unfold mat_to_image_buffer_gray Mat.as_slice
  by_cases hcont : m.contiguous = true
  · rw [if_pos ⟨hcont, hd⟩]
    show ImageBuffer.from_vec 1 d w h m.data = _
    unfold ImageBuffer.from_vec
    rw [if_pos (by rw [hlen]; exact le_of_eq (by ring))]
  · rw [if_neg (by tauto)]
    exact mat_gray_fallback_eq d m w h hch hd hr hc hw hh hlen

theorem mat_rgb_fallback_eq (d : Int) (m : Mat) (w h : Nat)
    (hch : m.channels = 3) (hd : m.depth = d)
    (hr : m.rows = (h : Int)) (hc : m.cols = (w : Int))
    (hw : w < 2 ^ 31) (hh : h < 2 ^ 31)
    (hlen : m.data.length = h * w * 3) :
    mat_rgb_fallback d m w h =
      some { width := w, height := h, channels := 3, depth := d, data := m.data } := by
  unfold mat_rgb_fallback ImageBuffer.from_fn_rgb
  have hmain : traverseOption (fun i => m.at_2d_rgb d (asI32 (i / w)) (asI32 (i % w)))
      (List.range (w * h))
      = some ((List.range (w * h)).map
          (fun i => (m.data.getD (i * 3) 0, m.data.getD (i * 3 + 1) 0, m.data.getD (i * 3 + 2) 0))) := by
    apply traverseOption_eq_some_map
    intro i hi
    rw [List.mem_range] at hi
    have hwpos : 0 < w := by
      rcases Nat.eq_zero_or_pos w with h0 | h0
      · subst h0; simp at hi
      · exact h0
    have hdiv : i / w < h := Nat.div_lt_of_lt_mul hi
    have hmod : i % w < w := Nat.mod_lt _ hwpos
    rw [asI32_eq_of_lt (by omega), asI32_eq_of_lt (by omega)]
    unfold Mat.at_2d_rgb
    have hcond : 0 ≤ ((i / w : Nat) : Int) ∧ ((i / w : Nat) : Int) < m.rows ∧
        0 ≤ ((i % w : Nat) : Int) ∧ ((i % w : Nat) : Int) < m.cols ∧
        m.depth = d ∧ m.channels = 3 := by
      refine ⟨Int.natCast_nonneg _, ?_, Int.natCast_nonneg _, ?_, hd, hch⟩
      · rw [hr]; exact_mod_cast hdiv
      · rw [hc]; exact_mod_cast hmod
    rw [if_pos hcond]
    have hidx : (((i / w : Nat) : Int) * m.cols + ((i % w : Nat) : Int)).toNat = i := by
      rw [hc]
      have hcast : (((i / w : Nat) : Int) * ((w : Nat) : Int) + ((i % w : Nat) : Int))
          = ((i / w * w + i % w : Nat) : Int) := by push_cast; ring
      rw [hcast, Int.toNat_natCast]
      rw [Nat.mul_comm]
      exact Nat.div_add_mod i w
    rw [hidx]
    have h3i : i * 3 + 3 ≤ w * h * 3 := by
      have hle : i + 1 ≤ w * h := hi
      calc i * 3 + 3 = (i + 1) * 3 := by ring
      _ ≤ w * h * 3 := Nat.mul_le_mul_right 3 hle
    have hlen3 : m.data.length = w * h * 3 := by rw [hlen]; ring
    have hb1 : i * 3 < m.data.length := by omega
    have hb2 : i * 3 + 1 < m.data.length := by omega
    have hb3 : i * 3 + 2 < m.data.length := by omega
    rw [List.getElem?_eq_getElem hb1, List.getElem?_eq_getElem hb2, List.getElem?_eq_getElem hb3]
    rw [List.getD_eq_getElem m.data 0 hb1, List.getD_eq_getElem m.data 0 hb2,
        List.getD_eq_getElem m.data 0 hb3]
  rw [hmain]
  simp only [Option.map_some', List.map_map]
  have hfun : ((fun p : Nat × Nat × Nat => [p.1, p.2.1, p.2.2]) ∘
      (fun i => (m.data.getD (i * 3) 0, m.data.getD (i * 3 + 1) 0, m.data.getD (i * 3 + 2) 0)))
      = (fun i => [m.data.getD (i * 3) 0, m.data.getD (i * 3 + 1) 0, m.data.getD (i * 3 + 2) 0]) := by
    funext i
    rfl
  rw [hfun, flatten_triples (w * h) m.data 0 (by rw [hlen]; ring)]

theorem mat_to_image_buffer_rgb_eq (d : Int) (m : Mat) (w h : Nat)
    (hch : m.channels = 3) (hd : m.depth = d)
    (hr : m.rows = (h : Int)) (hc : m.cols = (w : Int))
    (hw : w < 2 ^ 31) (hh : h < 2 ^ 31)
    (hlen : m.data.length = h * w * 3) :
    mat_to_image_buffer_rgb d m w h =
      some { width := w, height := h, channels := 3, depth := d, data := m.data } := by
  unfold mat_to_image_buffer_rgb Mat.as_slice
  by_cases hcont : m.contiguous = true
  · rw [if_pos ⟨hcont, hd⟩]
    show ImageBuffer.from_vec 3 d w h m.data = _
    unfold ImageBuffer.from_vec
    rw [if_pos (by rw [hlen]; exact le_of_eq (by ring))]
  · rw [if_neg (by tauto)]
    exact mat_rgb_fallback_eq d m w h hch hd hr hc hw hh hlen

theorem Mat.try_to_cv_gray_ok (m : Mat) (d : Int) (hwf : m.wf)
    (hr : 0 ≤ m.rows) (hc : 0 ≤ m.cols) (hch : m.channels = 1) (hd : m.depth = d) :
    m.try_to_cv_gray d =
      .ok (some { width := m.cols.toNat, height := m.rows.toNat, channels := 1, depth := d,
                  data := m.data }) := by
  obtain ⟨hdims, hrb, hcb, hlen⟩ := hwf
  unfold Mat.try_to_cv_gray
  rw [if_pos ⟨by omega, by omega⟩, if_pos hch, if_pos hd]
  rw [asU32_eq_toNat hc hcb, asU32_eq_toNat hr hrb]
  rw [mat_to_image_buffer_gray_eq d m m.cols.toNat m.rows.toNat hch hd (by omega) (by omega)
      (by omega) (by omega) (by rw [hlen hr, hch])]

theorem Mat.try_to_cv_rgb_ok (m : Mat) (d : Int) (hwf : m.wf)
    (hr : 0 ≤ m.rows) (hc : 0 ≤ m.cols) (hch : m.channels = 3) (hd : m.depth = d) :
    m.try_to_cv_rgb d =
      .ok (some { width := m.cols.toNat, height := m.rows.toNat, channels := 3, depth := d,
                  data := m.data }) := by
  obtain ⟨hdims, hrb, hcb, hlen⟩ := hwf
  unfold Mat.try_to_cv_rgb
  rw [if_pos ⟨by omega, by omega⟩, if_pos hch, if_pos hd]
  rw [asU32_eq_toNat hc hcb, asU32_eq_toNat hr hrb]
  rw [mat_to_image_buffer_rgb_eq d m m.cols.toNat m.rows.toNat hch hd (by omega) (by omega)
      (by omega) (by omega) (by rw [hlen hr, hch])]

/-! Claim theorems. -/

/-- C1: for every well-formed single-channel or 3-channel pixel buffer of a
supported element type (CV_8U, CV_16U or CV_32F depth, dimensions within
OpenCV's `i32` range), encoding it to a matrix with `try_to_cv` succeeds,
and decoding that matrix back at the same pixel kind and element type
succeeds (no error, no panic) and returns a buffer equal to the original
pixel-for-pixel (indeed equal as a whole, per-pixel tuples included). -/
theorem C1_round_trip (b : ImageBuffer) (hwf : b.wf)
    (hw : b.width < 2 ^ 31) (hh : b.height < 2 ^ 31)
    (_hdepth : b.depth = CV_8U ∨ b.depth = CV_16U ∨ b.depth = CV_32F) :
    (b.channels = 1 → ∃ m, b.try_to_cv true = .ok m ∧ m.try_to_cv_gray b.depth = .ok (some b)) ∧
    (b.channels = 3 → ∃ m, b.try_to_cv true = .ok m ∧ m.try_to_cv_rgb b.depth = .ok (some b)) := by
  have hmwf : ({ rows := (b.height : Int), cols := (b.width : Int), depth := b.depth,
                 channels := b.channels, data := b.data, contiguous := true } : Mat).wf := by
    refine ⟨Or.inr ⟨Int.natCast_nonneg _, Int.natCast_nonneg _⟩,
      show (b.height : Int) < 2 ^ 31 by exact_mod_cast hh,
      show (b.width : Int) < 2 ^ 31 by exact_mod_cast hw, fun _ => ?_⟩
    show b.data.length = ((b.height : Int)).toNat * ((b.width : Int)).toNat * b.channels
    simp only [Int.toNat_natCast]
    rw [hwf]
    ring
  constructor
  · intro hch
    refine ⟨_, b.try_to_cv_eq hwf hw hh, ?_⟩
    rw [Mat.try_to_cv_gray_ok _ _ hmwf (Int.natCast_nonneg _) (Int.natCast_nonneg _) hch rfl]
    simp only [Int.toNat_natCast]
    have hb : ({ width := b.width, height := b.height, channels := 1, depth := b.depth,
                 data := b.data } : ImageBuffer) = b := by
      rw [← hch]
    rw [hb]
  · intro hch
    refine ⟨_, b.try_to_cv_eq hwf hw hh, ?_⟩
    rw [Mat.try_to_cv_rgb_ok _ _ hmwf (Int.natCast_nonneg _) (Int.natCast_nonneg _) hch rfl]
    simp only [Int.toNat_natCast]
    have hb : ({ width := b.width, height := b.height, channels := 3, depth := b.depth,
                 data := b.data } : ImageBuffer) = b := by
      rw [← hch]
    rw [hb]

/-- Witness for C1 at a concrete 2 x 1 single-channel 8-bit buffer. -/
theorem C1_round_trip_witness :
    ((ImageBuffer.mk 2 1 1 CV_8U [7, 9]).wf ∧
     (ImageBuffer.mk 2 1 1 CV_8U [7, 9]).width < 2 ^ 31 ∧
     (ImageBuffer.mk 2 1 1 CV_8U [7, 9]).height < 2 ^ 31 ∧
     ((ImageBuffer.mk 2 1 1 CV_8U [7, 9]).depth = CV_8U ∨
      (ImageBuffer.mk 2 1 1 CV_8U [7, 9]).depth = CV_16U ∨
      (ImageBuffer.mk 2 1 1 CV_8U [7, 9]).depth = CV_32F)) ∧
    (((ImageBuffer.mk 2 1 1 CV_8U [7, 9]).channels = 1 →
      ∃ m, (ImageBuffer.mk 2 1 1 CV_8U [7, 9]).try_to_cv true = .ok m ∧
        m.try_to_cv_gray (ImageBuffer.mk 2 1 1 CV_8U [7, 9]).depth
          = .ok (some (ImageBuffer.mk 2 1 1 CV_8U [7, 9]))) ∧
     ((ImageBuffer.mk 2 1 1 CV_8U [7, 9]).channels = 3 →
      ∃ m, (ImageBuffer.mk 2 1 1 CV_8U [7, 9]).try_to_cv true = .ok m ∧
        m.try_to_cv_rgb (ImageBuffer.mk 2 1 1 CV_8U [7, 9]).depth
          = .ok (some (ImageBuffer.mk 2 1 1 CV_8U [7, 9])))) :=
  ⟨⟨by decide, by decide, by decide, by decide⟩,
   C1_round_trip (ImageBuffer.mk 2 1 1 CV_8U [7, 9]) (by decide) (by decide) (by decide) (by decide)⟩

/-- C2: for every well-formed 2-dimensional matrix, the `Mat -> DynamicImage`
conversion dispatches exactly on the (depth, channels) pair: (CV_8U, 1)
yields the `luma8` variant, (CV_16U, 1) yields `luma16`, (CV_8U, 3) yields
`rgb8`, (CV_16U, 3) yields `rgb16`, (CV_32F, 3) yields `rgb32f`, and every
pair outside these five fails with the unsupported-type error; being a
function of the matrix, the same pair always routes to the same variant. -/
theorem C2_dynamic_dispatch (m : Mat) (hwf : m.wf) (hr : m.rows ≠ -1) (hc : m.cols ≠ -1) :
    (m.depth = CV_8U ∧ m.channels = 1 →
      ∃ i, m.try_to_cv_dynamic = .ok (some (.luma8 i))) ∧
    (m.depth = CV_16U ∧ m.channels = 1 →
      ∃ i, m.try_to_cv_dynamic = .ok (some (.luma16 i))) ∧
    (m.depth = CV_8U ∧ m.channels = 3 →
      ∃ i, m.try_to_cv_dynamic = .ok (some (.rgb8 i))) ∧
    (m.depth = CV_16U ∧ m.channels = 3 →
      ∃ i, m.try_to_cv_dynamic = .ok (some (.rgb16 i))) ∧
    (m.depth = CV_32F ∧ m.channels = 3 →
      ∃ i, m.try_to_cv_dynamic = .ok (some (.rgb32f i))) ∧
    (¬ dynSupported m.depth m.channels →
      m.try_to_cv_dynamic = .error (.unsupportedType m.type_name)) := by
  obtain ⟨hdims, hrb, hcb, hlenw⟩ := hwf
  have hr0 : 0 ≤ m.rows := by
    rcases hdims with h | h
    · exact absurd h.1 hr
    · exact h.1
  have hc0 : 0 ≤ m.cols := by
    rcases hdims with h | h
    · exact absurd h.2 hc
    · exact h.2
  unfold Mat.try_to_cv_dynamic
  rw [if_pos ⟨hr, hc⟩, asU32_eq_toNat hc0 hcb, asU32_eq_toNat hr0 hrb]
  refine ⟨?_, ?_, ?_, ?_, ?_, ?_⟩
  · rintro ⟨hd, hch⟩
    rw [if_pos ⟨hd, hch⟩,
        mat_to_image_buffer_gray_eq CV_8U m m.cols.toNat m.rows.toNat hch hd (by omega) (by omega)
          (by omega) (by omega) (by rw [hlenw hr0, hch])]
    exact ⟨_, rfl⟩
  · rintro ⟨hd, hch⟩
    rw [if_neg (by rintro ⟨h1, -⟩; rw [hd] at h1; exact absurd h1 (by decide)),
        if_pos ⟨hd, hch⟩,
        mat_to_image_buffer_gray_eq CV_16U m m.cols.toNat m.rows.toNat hch hd (by omega) (by omega)
          (by omega) (by omega) (by rw [hlenw hr0, hch])]
    exact ⟨_, rfl⟩
  · rintro ⟨hd, hch⟩
    rw [if_neg (by rintro ⟨-, h1⟩; rw [hch] at h1; exact absurd h1 (by decide)),
        if_neg (by rintro ⟨h1, -⟩; rw [hd] at h1; exact absurd h1 (by decide)),
        if_pos ⟨hd, hch⟩,
        mat_to_image_buffer_rgb_eq CV_8U m m.cols.toNat m.rows.toNat hch hd (by omega) (by omega)
          (by omega) (by omega) (by rw [hlenw hr0, hch])]
    exact ⟨_, rfl⟩
  · rintro ⟨hd, hch⟩
    rw [if_neg (by rintro ⟨h1, -⟩; rw [hd] at h1; exact absurd h1 (by decide)),
        if_neg (by rintro ⟨-, h1⟩; rw [hch] at h1; exact absurd h1 (by decide)),
        if_neg (by rintro ⟨h1, -⟩; rw [hd] at h1; exact absurd h1 (by decide)),
        if_pos ⟨hd, hch⟩,
        mat_to_image_buffer_rgb_eq CV_16U m m.cols.toNat m.rows.toNat hch hd (by omega) (by omega)
          (by omega) (by omega) (by rw [hlenw hr0, hch])]
    exact ⟨_, rfl⟩
  · rintro ⟨hd, hch⟩
    rw [if_neg (by rintro ⟨h1, -⟩; rw [hd] at h1; exact absurd h1 (by decide)),
        if_neg (by rintro ⟨h1, -⟩; rw [hd] at h1; exact absurd h1 (by decide)),
        if_neg (by rintro ⟨h1, -⟩; rw [hd] at h1; exact absurd h1 (by decide)),
        if_neg (by rintro ⟨h1, -⟩; rw [hd] at h1; exact absurd h1 (by decide)),
        if_pos ⟨hd, hch⟩,
        mat_to_image_buffer_rgb_eq CV_32F m m.cols.toNat m.rows.toNat hch hd (by omega) (by omega)
          (by omega) (by omega) (by rw [hlenw hr0, hch])]
    exact ⟨_, rfl⟩
  · intro hni
    unfold dynSupported at hni
    rw [not_or, not_or, not_or, not_or] at hni
    rw [if_neg hni.1, if_neg hni.2.1, if_neg hni.2.2.1, if_neg hni.2.2.2.1, if_neg hni.2.2.2.2]

/-- Witness for C2 at a concrete 1 x 1 single-channel 8-bit matrix. -/
theorem C2_dynamic_dispatch_witness :
    ((Mat.mk 1 1 CV_8U 1 [5] true).wf ∧ (Mat.mk 1 1 CV_8U 1 [5] true).rows ≠ -1 ∧
     (Mat.mk 1 1 CV_8U 1 [5] true).cols ≠ -1) ∧
    (((Mat.mk 1 1 CV_8U 1 [5] true).depth = CV_8U ∧ (Mat.mk 1 1 CV_8U 1 [5] true).channels = 1 →
      ∃ i, (Mat.mk 1 1 CV_8U 1 [5] true).try_to_cv_dynamic = .ok (some (.luma8 i))) ∧
     ((Mat.mk 1 1 CV_8U 1 [5] true).depth = CV_16U ∧ (Mat.mk 1 1 CV_8U 1 [5] true).channels = 1 →
      ∃ i, (Mat.mk 1 1 CV_8U 1 [5] true).try_to_cv_dynamic = .ok (some (.luma16 i))) ∧
     ((Mat.mk 1 1 CV_8U 1 [5] true).depth = CV_8U ∧ (Mat.mk 1 1 CV_8U 1 [5] true).channels = 3 →
      ∃ i, (Mat.mk 1 1 CV_8U 1 [5] true).try_to_cv_dynamic = .ok (some (.rgb8 i))) ∧
     ((Mat.mk 1 1 CV_8U 1 [5] true).depth = CV_16U ∧ (Mat.mk 1 1 CV_8U 1 [5] true).channels = 3 →
      ∃ i, (Mat.mk 1 1 CV_8U 1 [5] true).try_to_cv_dynamic = .ok (some (.rgb16 i))) ∧
     ((Mat.mk 1 1 CV_8U 1 [5] true).depth = CV_32F ∧ (Mat.mk 1 1 CV_8U 1 [5] true).channels = 3 →
      ∃ i, (Mat.mk 1 1 CV_8U 1 [5] true).try_to_cv_dynamic = .ok (some (.rgb32f i))) ∧
     (¬ dynSupported (Mat.mk 1 1 CV_8U 1 [5] true).depth (Mat.mk 1 1 CV_8U 1 [5] true).channels →
      (Mat.mk 1 1 CV_8U 1 [5] true).try_to_cv_dynamic
        = .error (.unsupportedType (Mat.mk 1 1 CV_8U 1 [5] true).type_name))) :=
  ⟨⟨by decide, by decide, by decide⟩,
   C2_dynamic_dispatch (Mat.mk 1 1 CV_8U 1 [5] true) (by decide) (by decide) (by decide)⟩

/-- C3: every matrix reporting `rows = -1` or `cols = -1` (dimensionality
other than 2) is rejected by the typed decoders and by the dynamic decoder
with the dimensionality error; the result is the same for every content of
the data store, i.e. no element is accessed and nothing is copied. -/
theorem C3_dimensionality_reject (d : Int) (m : Mat) (h : m.rows = -1 ∨ m.cols = -1) :
    m.try_to_cv_gray d = .error .dimensionality ∧
    m.try_to_cv_rgb d = .error .dimensionality ∧
    m.try_to_cv_dynamic = .error .dimensionality := by
  have hcond : ¬(m.rows ≠ -1 ∧ m.cols ≠ -1) := by tauto
  unfold Mat.try_to_cv_gray Mat.try_to_cv_rgb Mat.try_to_cv_dynamic
  rw [if_neg hcond, if_neg hcond, if_neg hcond]
  exact ⟨rfl, rfl, rfl⟩

/-- Witness for C3 at a concrete higher-dimensional matrix (both dimensions
reported as -1). -/
theorem C3_dimensionality_reject_witness :
    ((Mat.mk (-1) (-1) CV_8U 1 [3, 4] false).rows = -1 ∨
     (Mat.mk (-1) (-1) CV_8U 1 [3, 4] false).cols = -1) ∧
    ((Mat.mk (-1) (-1) CV_8U 1 [3, 4] false).try_to_cv_gray CV_8U = .error .dimensionality ∧
     (Mat.mk (-1) (-1) CV_8U 1 [3, 4] false).try_to_cv_rgb CV_8U = .error .dimensionality ∧
     (Mat.mk (-1) (-1) CV_8U 1 [3, 4] false).try_to_cv_dynamic = .error .dimensionality) :=
  ⟨by decide, C3_dimensionality_reject CV_8U (Mat.mk (-1) (-1) CV_8U 1 [3, 4] false) (by decide)⟩

/-- C4: the typed decoders check dimensionality first, then the channel
count, then the depth, each violation producing its own distinct error (the
dimensionality error wins over any other violation, a channel mismatch wins
over a depth mismatch), and when all three preconditions hold on a
well-formed matrix the decode succeeds. -/
theorem C4_check_order (d : Int) (m : Mat) :
    ((m.rows = -1 ∨ m.cols = -1) →
      m.try_to_cv_gray d = .error .dimensionality ∧
      m.try_to_cv_rgb d = .error .dimensionality) ∧
    (m.rows ≠ -1 → m.cols ≠ -1 → m.channels ≠ 1 →
      m.try_to_cv_gray d = .error .grayChannelMismatch) ∧
    (m.rows ≠ -1 → m.cols ≠ -1 → m.channels ≠ 3 →
      m.try_to_cv_rgb d = .error (.rgbChannelMismatch m.channels)) ∧
    (m.rows ≠ -1 → m.cols ≠ -1 → m.channels = 1 → m.depth ≠ d →
      m.try_to_cv_gray d = .error .depthMismatch) ∧
    (m.rows ≠ -1 → m.cols ≠ -1 → m.channels = 3 → m.depth ≠ d →
      m.try_to_cv_rgb d = .error .depthMismatch) ∧
    (m.wf → 0 ≤ m.rows → 0 ≤ m.cols → m.channels = 1 → m.depth = d →
      ∃ b, m.try_to_cv_gray d = .ok (some b)) ∧
    (m.wf → 0 ≤ m.rows → 0 ≤ m.cols → m.channels = 3 → m.depth = d →
      ∃ b, m.try_to_cv_rgb d = .ok (some b)) ∧
    (ConvError.dimensionality ≠ .grayChannelMismatch ∧
     ConvError.dimensionality ≠ .rgbChannelMismatch m.channels ∧
     ConvError.dimensionality ≠ .depthMismatch ∧
     ConvError.grayChannelMismatch ≠ .depthMismatch ∧
     ConvError.rgbChannelMismatch m.channels ≠ .depthMismatch) := by
  refine ⟨?_, ?_, ?_, ?_, ?_, ?_, ?_, ?_⟩
  · intro h
    have hcond : ¬(m.rows ≠ -1 ∧ m.cols ≠ -1) := by tauto
    unfold Mat.try_to_cv_gray Mat.try_to_cv_rgb
    rw [if_neg hcond, if_neg hcond]
    exact ⟨rfl, rfl⟩
  · intro h1 h2 hch
    unfold Mat.try_to_cv_gray
    rw [if_pos ⟨h1, h2⟩, if_neg hch]
  · intro h1 h2 hch
    unfold Mat.try_to_cv_rgb
    rw [if_pos ⟨h1, h2⟩, if_neg hch]
  · intro h1 h2 hch hd
    unfold Mat.try_to_cv_gray
    rw [if_pos ⟨h1, h2⟩, if_pos hch, if_neg hd]
  · intro h1 h2 hch hd
    unfold Mat.try_to_cv_rgb
    rw [if_pos ⟨h1, h2⟩, if_pos hch, if_neg hd]
  · intro hwf hr0 hc0 hch hd
    exact ⟨_, Mat.try_to_cv_gray_ok m d hwf hr0 hc0 hch hd⟩
  · intro hwf hr0 hc0 hch hd
    exact ⟨_, Mat.try_to_cv_rgb_ok m d hwf hr0 hc0 hch hd⟩
  · exact ⟨fun hcon => ConvError.noConfusion hcon, fun hcon => ConvError.noConfusion hcon,
      fun hcon => ConvError.noConfusion hcon, fun hcon => ConvError.noConfusion hcon,
      fun hcon => ConvError.noConfusion hcon⟩

/-- Witness for C4 at a concrete 1 x 1 single-channel 8-bit matrix. -/
theorem C4_check_order_witness :
    (((Mat.mk 1 1 CV_8U 1 [5] true).rows = -1 ∨ (Mat.mk 1 1 CV_8U 1 [5] true).cols = -1) →
      (Mat.mk 1 1 CV_8U 1 [5] true).try_to_cv_gray CV_8U = .error .dimensionality ∧
      (Mat.mk 1 1 CV_8U 1 [5] true).try_to_cv_rgb CV_8U = .error .dimensionality) ∧
    ((Mat.mk 1 1 CV_8U 1 [5] true).rows ≠ -1 → (Mat.mk 1 1 CV_8U 1 [5] true).cols ≠ -1 →
      (Mat.mk 1 1 CV_8U 1 [5] true).channels ≠ 1 →
      (Mat.mk 1 1 CV_8U 1 [5] true).try_to_cv_gray CV_8U = .error .grayChannelMismatch) ∧
    ((Mat.mk 1 1 CV_8U 1 [5] true).rows ≠ -1 → (Mat.mk 1 1 CV_8U 1 [5] true).cols ≠ -1 →
      (Mat.mk 1 1 CV_8U 1 [5] true).channels ≠ 3 →
      (Mat.mk 1 1 CV_8U 1 [5] true).try_to_cv_rgb CV_8U
        = .error (.rgbChannelMismatch (Mat.mk 1 1 CV_8U 1 [5] true).channels)) ∧
    ((Mat.mk 1 1 CV_8U 1 [5] true).rows ≠ -1 → (Mat.mk 1 1 CV_8U 1 [5] true).cols ≠ -1 →
      (Mat.mk 1 1 CV_8U 1 [5] true).channels = 1 → (Mat.mk 1 1 CV_8U 1 [5] true).depth ≠ CV_8U →
      (Mat.mk 1 1 CV_8U 1 [5] true).try_to_cv_gray CV_8U = .error .depthMismatch) ∧
    ((Mat.mk 1 1 CV_8U 1 [5] true).rows ≠ -1 → (Mat.mk 1 1 CV_8U 1 [5] true).cols ≠ -1 →
      (Mat.mk 1 1 CV_8U 1 [5] true).channels = 3 → (Mat.mk 1 1 CV_8U 1 [5] true).depth ≠ CV_8U →
      (Mat.mk 1 1 CV_8U 1 [5] true).try_to_cv_rgb CV_8U = .error .depthMismatch) ∧
    ((Mat.mk 1 1 CV_8U 1 [5] true).wf → 0 ≤ (Mat.mk 1 1 CV_8U 1 [5] true).rows →
      0 ≤ (Mat.mk 1 1 CV_8U 1 [5] true).cols → (Mat.mk 1 1 CV_8U 1 [5] true).channels = 1 →
      (Mat.mk 1 1 CV_8U 1 [5] true).depth = CV_8U →
      ∃ b, (Mat.mk 1 1 CV_8U 1 [5] true).try_to_cv_gray CV_8U = .ok (some b)) ∧
    ((Mat.mk 1 1 CV_8U 1 [5] true).wf → 0 ≤ (Mat.mk 1 1 CV_8U 1 [5] true).rows →
      0 ≤ (Mat.mk 1 1 CV_8U 1 [5] true).cols → (Mat.mk 1 1 CV_8U 1 [5] true).channels = 3 →
      (Mat.mk 1 1 CV_8U 1 [5] true).depth = CV_8U →
      ∃ b, (Mat.mk 1 1 CV_8U 1 [5] true).try_to_cv_rgb CV_8U = .ok (some b)) ∧
    (ConvError.dimensionality ≠ .grayChannelMismatch ∧
     ConvError.dimensionality ≠ .rgbChannelMismatch (Mat.mk 1 1 CV_8U 1 [5] true).channels ∧
     ConvError.dimensionality ≠ .depthMismatch ∧
     ConvError.grayChannelMismatch ≠ .depthMismatch ∧
     ConvError.rgbChannelMismatch (Mat.mk 1 1 CV_8U 1 [5] true).channels ≠ .depthMismatch) :=
  C4_check_order CV_8U (Mat.mk 1 1 CV_8U 1 [5] true)

/-- C5: on every well-formed 2-dimensional matrix on which the typed
contiguous-slice view succeeds, the decode helpers (fast path included)
return exactly what the element-wise fallback path returns, for both the
single-channel and the 3-channel decoder. -/
theorem C5_fast_fallback_equiv (d : Int) (m : Mat) (hwf : m.wf)
    (hr : 0 ≤ m.rows) (hc : 0 ≤ m.cols) (hs : (m.as_slice d).isSome = true) :
    (m.channels = 1 →
      mat_to_image_buffer_gray d m (asU32 m.cols) (asU32 m.rows)
        = mat_gray_fallback d m (asU32 m.cols) (asU32 m.rows)) ∧
    (m.channels = 3 →
      mat_to_image_buffer_rgb d m (asU32 m.cols) (asU32 m.rows)
        = mat_rgb_fallback d m (asU32 m.cols) (asU32 m.rows)) := by
  obtain ⟨hdims, hrb, hcb, hlenw⟩ := hwf
  have hsd : m.contiguous = true ∧ m.depth = d := by
    by_contra hcon
    unfold Mat.as_slice at hs
    rw [if_neg hcon] at hs
    simp at hs
  constructor
  · intro hch
    rw [asU32_eq_toNat hc hcb, asU32_eq_toNat hr hrb,
        mat_to_image_buffer_gray_eq d m m.cols.toNat m.rows.toNat hch hsd.2 (by omega) (by omega)
          (by omega) (by omega) (by rw [hlenw hr, hch]),
        mat_gray_fallback_eq d m m.cols.toNat m.rows.toNat hch hsd.2 (by omega) (by omega)
          (by omega) (by omega) (by rw [hlenw hr, hch])]
  · intro hch
    rw [asU32_eq_toNat hc hcb, asU32_eq_toNat hr hrb,
        mat_to_image_buffer_rgb_eq d m m.cols.toNat m.rows.toNat hch hsd.2 (by omega) (by omega)
          (by omega) (by omega) (by rw [hlenw hr, hch]),
        mat_rgb_fallback_eq d m m.cols.toNat m.rows.toNat hch hsd.2 (by omega) (by omega)
          (by omega) (by omega) (by rw [hlenw hr, hch])]

/-- Witness for C5 at a concrete contiguous 1 x 2 single-channel matrix. -/
theorem C5_fast_fallback_equiv_witness :
    ((Mat.mk 1 2 CV_8U 1 [3, 4] true).wf ∧ 0 ≤ (Mat.mk 1 2 CV_8U 1 [3, 4] true).rows ∧
     0 ≤ (Mat.mk 1 2 CV_8U 1 [3, 4] true).cols ∧
     ((Mat.mk 1 2 CV_8U 1 [3, 4] true).as_slice CV_8U).isSome = true) ∧
    (((Mat.mk 1 2 CV_8U 1 [3, 4] true).channels = 1 →
      mat_to_image_buffer_gray CV_8U (Mat.mk 1 2 CV_8U 1 [3, 4] true)
          (asU32 (Mat.mk 1 2 CV_8U 1 [3, 4] true).cols) (asU32 (Mat.mk 1 2 CV_8U 1 [3, 4] true).rows)
        = mat_gray_fallback CV_8U (Mat.mk 1 2 CV_8U 1 [3, 4] true)
          (asU32 (Mat.mk 1 2 CV_8U 1 [3, 4] true).cols) (asU32 (Mat.mk 1 2 CV_8U 1 [3, 4] true).rows)) ∧
     ((Mat.mk 1 2 CV_8U 1 [3, 4] true).channels = 3 →
      mat_to_image_buffer_rgb CV_8U (Mat.mk 1 2 CV_8U 1 [3, 4] true)
          (asU32 (Mat.mk 1 2 CV_8U 1 [3, 4] true).cols) (asU32 (Mat.mk 1 2 CV_8U 1 [3, 4] true).rows)
        = mat_rgb_fallback CV_8U (Mat.mk 1 2 CV_8U 1 [3, 4] true)
          (asU32 (Mat.mk 1 2 CV_8U 1 [3, 4] true).cols) (asU32 (Mat.mk 1 2 CV_8U 1 [3, 4] true).rows))) :=
  ⟨⟨by decide, by decide, by decide, by decide⟩,
   C5_fast_fallback_equiv CV_8U (Mat.mk 1 2 CV_8U 1 [3, 4] true) (by decide) (by decide) (by decide)
     (by decide)⟩

/-- C6: on every well-formed matrix satisfying the typed decoder's
preconditions, the output buffer's width is the matrix's column count and
its height the row count, and the buffer pixel at image coordinate
(col, row) is the matrix element at (row, col), channel by channel in the
same order, with no reordering. -/
theorem C6_decode_pixelwise (d : Int) (m : Mat) (hwf : m.wf)
    (hr : 0 ≤ m.rows) (hc : 0 ≤ m.cols) :
    (m.channels = 1 → m.depth = d →
      ∃ b, m.try_to_cv_gray d = .ok (some b) ∧ b.width = m.cols.toNat ∧
        b.height = m.rows.toNat ∧
        ∀ row col, row < b.height → col < b.width → b.subpixel col row 0 = m.elem row col 0) ∧
    (m.channels = 3 → m.depth = d →
      ∃ b, m.try_to_cv_rgb d = .ok (some b) ∧ b.width = m.cols.toNat ∧
        b.height = m.rows.toNat ∧
        ∀ row col k, row < b.height → col < b.width → k < 3 →
          b.subpixel col row k = m.elem row col k) := by
  constructor
  · intro hch hd
    refine ⟨_, Mat.try_to_cv_gray_ok m d hwf hr hc hch hd, rfl, rfl, ?_⟩
    intro row col hrow hcol
    show m.data.getD ((row * m.cols.toNat + col) * 1 + 0) 0
      = m.data.getD ((row * m.cols.toNat + col) * m.channels + 0) 0
    rw [hch]
  · intro hch hd
    refine ⟨_, Mat.try_to_cv_rgb_ok m d hwf hr hc hch hd, rfl, rfl, ?_⟩
    intro row col k hrow hcol hk
    show m.data.getD ((row * m.cols.toNat + col) * 3 + k) 0
      = m.data.getD ((row * m.cols.toNat + col) * m.channels + k) 0
    rw [hch]

/-- Witness for C6 at a concrete 1 x 1 single-channel 8-bit matrix. -/
theorem C6_decode_pixelwise_witness :
    ((Mat.mk 1 1 CV_8U 1 [5] true).wf ∧ 0 ≤ (Mat.mk 1 1 CV_8U 1 [5] true).rows ∧
     0 ≤ (Mat.mk 1 1 CV_8U 1 [5] true).cols) ∧
    (((Mat.mk 1 1 CV_8U 1 [5] true).channels = 1 → (Mat.mk 1 1 CV_8U 1 [5] true).depth = CV_8U →
      ∃ b, (Mat.mk 1 1 CV_8U 1 [5] true).try_to_cv_gray CV_8U = .ok (some b) ∧
        b.width = (Mat.mk 1 1 CV_8U 1 [5] true).cols.toNat ∧
        b.height = (Mat.mk 1 1 CV_8U 1 [5] true).rows.toNat ∧
        ∀ row col, row < b.height → col < b.width →
          b.subpixel col row 0 = (Mat.mk 1 1 CV_8U 1 [5] true).elem row col 0) ∧
     ((Mat.mk 1 1 CV_8U 1 [5] true).channels = 3 → (Mat.mk 1 1 CV_8U 1 [5] true).depth = CV_8U →
      ∃ b, (Mat.mk 1 1 CV_8U 1 [5] true).try_to_cv_rgb CV_8U = .ok (some b) ∧
        b.width = (Mat.mk 1 1 CV_8U 1 [5] true).cols.toNat ∧
        b.height = (Mat.mk 1 1 CV_8U 1 [5] true).rows.toNat ∧
        ∀ row col k, row < b.height → col < b.width → k < 3 →
          b.subpixel col row k = (Mat.mk 1 1 CV_8U 1 [5] true).elem row col k)) :=
  ⟨⟨by decide, by decide, by decide⟩,
   C6_decode_pixelwise CV_8U (Mat.mk 1 1 CV_8U 1 [5] true) (by decide) (by decide) (by decide)⟩

/-- C7: encoding a well-formed buffer (dimensions within OpenCV's `i32`
range) with the allocation succeeding yields a matrix of matching
dimensions, type tag and channel count whose scalar store equals the
buffer's (the zero-initialized allocation is entirely overwritten by the
bulk copy of `width*height*channels*size_of::<T>()` bytes), so the matrix
is pixel-identical to the buffer under (row, col, channel) indexing; and
when the allocation fails, the only failure surfaced is the allocation
error. -/
theorem C7_encode (b : ImageBuffer) (hwf : b.wf)
    (hw : b.width < 2 ^ 31) (hh : b.height < 2 ^ 31) :
    (∃ m : Mat, b.try_to_cv true = .ok m ∧
      m.rows = (b.height : Int) ∧ m.cols = (b.width : Int) ∧ m.depth = b.depth ∧
      m.channels = b.channels ∧ m.data = b.data ∧
      ∀ row col ch, m.elem row col ch = b.subpixel col row ch) ∧
    b.try_to_cv false = .error .allocation := by
  refine ⟨⟨_, b.try_to_cv_eq hwf hw hh, rfl, rfl, rfl, rfl, rfl, ?_⟩, b.try_to_cv_alloc_fail⟩
  intro row col ch
  show b.data.getD ((row * ((b.width : Int)).toNat + col) * b.channels + ch) 0
    = b.data.getD ((row * b.width + col) * b.channels + ch) 0
  rw [Int.toNat_natCast]

/-- Witness for C7 at a concrete 1 x 1 RGB 8-bit buffer. -/
theorem C7_encode_witness :
    ((ImageBuffer.mk 1 1 3 CV_8U [1, 2, 3]).wf ∧
     (ImageBuffer.mk 1 1 3 CV_8U [1, 2, 3]).width < 2 ^ 31 ∧
     (ImageBuffer.mk 1 1 3 CV_8U [1, 2, 3]).height < 2 ^ 31) ∧
    ((∃ m : Mat, (ImageBuffer.mk 1 1 3 CV_8U [1, 2, 3]).try_to_cv true = .ok m ∧
      m.rows = ((ImageBuffer.mk 1 1 3 CV_8U [1, 2, 3]).height : Int) ∧
      m.cols = ((ImageBuffer.mk 1 1 3 CV_8U [1, 2, 3]).width : Int) ∧
      m.depth = (ImageBuffer.mk 1 1 3 CV_8U [1, 2, 3]).depth ∧
      m.channels = (ImageBuffer.mk 1 1 3 CV_8U [1, 2, 3]).channels ∧
      m.data = (ImageBuffer.mk 1 1 3 CV_8U [1, 2, 3]).data ∧
      ∀ row col ch, m.elem row col ch = (ImageBuffer.mk 1 1 3 CV_8U [1, 2, 3]).subpixel col row ch) ∧
     (ImageBuffer.mk 1 1 3 CV_8U [1, 2, 3]).try_to_cv false = .error .allocation) :=
  ⟨⟨by decide, by decide, by decide⟩,
   C7_encode (ImageBuffer.mk 1 1 3 CV_8U [1, 2, 3]) (by decide) (by decide) (by decide)⟩

/-- C8 (amended): the unsupported-combination error of the dynamic decoder
names the observed depth and channel count (through the matrix type name),
and the RGB channel-mismatch error reports the expected count (3) and the
observed count; but the gray channel-mismatch error and the depth-mismatch
errors are fixed strings that contain no observed or expected values (not
even a digit). -/
theorem C8_error_messages (d : Int) (m : Mat) (hr : m.rows ≠ -1) (hc : m.cols ≠ -1) :
    (¬ dynSupported m.depth m.channels →
      m.try_to_cv_dynamic = .error (.unsupportedType m.type_name) ∧
      (ConvError.unsupportedType m.type_name).message
        = "Mat of type " ++ (depthName m.depth ++ "C" ++ toString m.channels)
          ++ " is not supported") ∧
    (m.channels ≠ 3 →
      m.try_to_cv_rgb d = .error (.rgbChannelMismatch m.channels) ∧
      (ConvError.rgbChannelMismatch m.channels).message
        = "Expect 3 channels, but get " ++ toString m.channels ++ " channels") ∧
    (m.channels ≠ 1 → m.try_to_cv_gray d = .error .grayChannelMismatch) ∧
    (m.channels = 1 → m.depth ≠ d → m.try_to_cv_gray d = .error .depthMismatch) ∧
    (m.channels = 3 → m.depth ≠ d → m.try_to_cv_rgb d = .error .depthMismatch) ∧
    ConvError.grayChannelMismatch.message
      = "Unable to convert a multi-channel Mat to a gray image" ∧
    ConvError.depthMismatch.message = "Subpixel type is not supported" ∧
    (ConvError.grayChannelMismatch.message.toList.all (fun c => !c.isDigit)) = true ∧
    (ConvError.depthMismatch.message.toList.all (fun c => !c.isDigit)) = true := by
  refine ⟨?_, ?_, ?_, ?_, ?_, rfl, rfl, by decide, by decide⟩
  · intro hni
    refine ⟨?_, rfl⟩
    unfold Mat.try_to_cv_dynamic
    rw [if_pos ⟨hr, hc⟩]
    unfold dynSupported at hni
    rw [not_or, not_or, not_or, not_or] at hni
    rw [if_neg hni.1, if_neg hni.2.1, if_neg hni.2.2.1, if_neg hni.2.2.2.1, if_neg hni.2.2.2.2]
  · intro hch
    refine ⟨?_, rfl⟩
    unfold Mat.try_to_cv_rgb
    rw [if_pos ⟨hr, hc⟩, if_neg hch]
  · intro hch
    unfold Mat.try_to_cv_gray
    rw [if_pos ⟨hr, hc⟩, if_neg hch]
  · intro hch hd
    unfold Mat.try_to_cv_gray
    rw [if_pos ⟨hr, hc⟩, if_pos hch, if_neg hd]
  · intro hch hd
    unfold Mat.try_to_cv_rgb
    rw [if_pos ⟨hr, hc⟩, if_pos hch, if_neg hd]

/-- Witness for the amended C8 at a concrete 1 x 1 two-channel CV_32S matrix
(an unsupported pair for the dynamic decoder). -/
theorem C8_error_messages_witness :
    ((Mat.mk 1 1 CV_32S 2 [0, 0] true).rows ≠ -1 ∧
     (Mat.mk 1 1 CV_32S 2 [0, 0] true).cols ≠ -1) ∧
    ((¬ dynSupported (Mat.mk 1 1 CV_32S 2 [0, 0] true).depth
        (Mat.mk 1 1 CV_32S 2 [0, 0] true).channels →
      (Mat.mk 1 1 CV_32S 2 [0, 0] true).try_to_cv_dynamic
        = .error (.unsupportedType (Mat.mk 1 1 CV_32S 2 [0, 0] true).type_name) ∧
      (ConvError.unsupportedType (Mat.mk 1 1 CV_32S 2 [0, 0] true).type_name).message
        = "Mat of type " ++ (depthName (Mat.mk 1 1 CV_32S 2 [0, 0] true).depth ++ "C"
            ++ toString (Mat.mk 1 1 CV_32S 2 [0, 0] true).channels) ++ " is not supported") ∧
     ((Mat.mk 1 1 CV_32S 2 [0, 0] true).channels ≠ 3 →
      (Mat.mk 1 1 CV_32S 2 [0, 0] true).try_to_cv_rgb CV_8U
        = .error (.rgbChannelMismatch (Mat.mk 1 1 CV_32S 2 [0, 0] true).channels) ∧
      (ConvError.rgbChannelMismatch (Mat.mk 1 1 CV_32S 2 [0, 0] true).channels).message
        = "Expect 3 channels, but get "
            ++ toString (Mat.mk 1 1 CV_32S 2 [0, 0] true).channels ++ " channels") ∧
     ((Mat.mk 1 1 CV_32S 2 [0, 0] true).channels ≠ 1 →
      (Mat.mk 1 1 CV_32S 2 [0, 0] true).try_to_cv_gray CV_8U = .error .grayChannelMismatch) ∧
     ((Mat.mk 1 1 CV_32S 2 [0, 0] true).channels = 1 →
      (Mat.mk 1 1 CV_32S 2 [0, 0] true).depth ≠ CV_8U →
      (Mat.mk 1 1 CV_32S 2 [0, 0] true).try_to_cv_gray CV_8U = .error .depthMismatch) ∧
     ((Mat.mk 1 1 CV_32S 2 [0, 0] true).channels = 3 →
      (Mat.mk 1 1 CV_32S 2 [0, 0] true).depth ≠ CV_8U →
      (Mat.mk 1 1 CV_32S 2 [0, 0] true).try_to_cv_rgb CV_8U = .error .depthMismatch) ∧
     ConvError.grayChannelMismatch.message
       = "Unable to convert a multi-channel Mat to a gray image" ∧
     ConvError.depthMismatch.message = "Subpixel type is not supported" ∧
     (ConvError.grayChannelMismatch.message.toList.all (fun c => !c.isDigit)) = true ∧
     (ConvError.depthMismatch.message.toList.all (fun c => !c.isDigit)) = true) :=
  ⟨⟨by decide, by decide⟩,
   C8_error_messages CV_8U (Mat.mk 1 1 CV_32S 2 [0, 0] true) (by decide) (by decide)⟩

/-- C8 counterexample: decoding a concrete 1 x 1 single-channel CV_16U matrix
as an 8-bit gray image fails with the depth-mismatch error, whose message is
a fixed string with no digit at all, so it reports neither the expected nor
the observed depth, contrary to the claim that depth-mismatch errors report
the expected and the observed depth. -/
theorem C8_counterexample :
    (Mat.mk 1 1 CV_16U 1 [5] true).try_to_cv_gray CV_8U = .error .depthMismatch ∧
    ConvError.depthMismatch.message = "Subpixel type is not supported" ∧
    (ConvError.depthMismatch.message.toList.all (fun c => !c.isDigit)) = true := by
  refine ⟨by decide, rfl, by decide⟩

/-- C9 (amended): the DynamicImage -> Mat encoder, run with the allocation
oracle succeeding and in-range dimensions, succeeds on exactly the ten
enumerated variant combinations (8/16-bit grayscale, 8/16-bit
grayscale+alpha, 8/16-bit and float RGB, 8/16-bit and float RGB+alpha),
delegating each to the typed buffer encoder, and fails with the
color-type-not-supported error on every other active variant. -/
theorem C9_encode_dispatch (img : DynamicImage) (hdims : img.dimsOk) :
    ((∀ c, img ≠ .otherColor c) → ∃ m, img.try_to_cv true = .ok m) ∧
    (∀ c, img = .otherColor c → img.try_to_cv true = .error (.unsupportedColor c)) := by
  constructor
  · intro hnc
    cases img with
    | luma8 b =>
      have hd : b.width < 2 ^ 31 ∧ b.height < 2 ^ 31 := hdims
      exact b.try_to_cv_isOk hd.1 hd.2
    | lumaA8 b =>
      have hd : b.width < 2 ^ 31 ∧ b.height < 2 ^ 31 := hdims
      exact b.try_to_cv_isOk hd.1 hd.2
    | rgb8 b =>
      have hd : b.width < 2 ^ 31 ∧ b.height < 2 ^ 31 := hdims
      exact b.try_to_cv_isOk hd.1 hd.2
    | rgba8 b =>
      have hd : b.width < 2 ^ 31 ∧ b.height < 2 ^ 31 := hdims
      exact b.try_to_cv_isOk hd.1 hd.2
    | luma16 b =>
      have hd : b.width < 2 ^ 31 ∧ b.height < 2 ^ 31 := hdims
      exact b.try_to_cv_isOk hd.1 hd.2
    | lumaA16 b =>
      have hd : b.width < 2 ^ 31 ∧ b.height < 2 ^ 31 := hdims
      exact b.try_to_cv_isOk hd.1 hd.2
    | rgb16 b =>
      have hd : b.width < 2 ^ 31 ∧ b.height < 2 ^ 31 := hdims
      exact b.try_to_cv_isOk hd.1 hd.2
    | rgba16 b =>
      have hd : b.width < 2 ^ 31 ∧ b.height < 2 ^ 31 := hdims
      exact b.try_to_cv_isOk hd.1 hd.2
    | rgb32f b =>
      have hd : b.width < 2 ^ 31 ∧ b.height < 2 ^ 31 := hdims
      exact b.try_to_cv_isOk hd.1 hd.2
    | rgba32f b =>
      have hd : b.width < 2 ^ 31 ∧ b.height < 2 ^ 31 := hdims
      exact b.try_to_cv_isOk hd.1 hd.2
    | otherColor c => exact absurd rfl (hnc c)
  · intro c hcc
    subst hcc
    rfl

/-- Witness for the amended C9 at a concrete 1 x 1 8-bit grayscale image. -/
theorem C9_encode_dispatch_witness :
    (DynamicImage.luma8 (ImageBuffer.mk 1 1 1 CV_8U [7])).dimsOk ∧
    (((∀ c, DynamicImage.luma8 (ImageBuffer.mk 1 1 1 CV_8U [7]) ≠ .otherColor c) →
      ∃ m, (DynamicImage.luma8 (ImageBuffer.mk 1 1 1 CV_8U [7])).try_to_cv true = .ok m) ∧
     (∀ c, DynamicImage.luma8 (ImageBuffer.mk 1 1 1 CV_8U [7]) = .otherColor c →
      (DynamicImage.luma8 (ImageBuffer.mk 1 1 1 CV_8U [7])).try_to_cv true
        = .error (.unsupportedColor c))) :=
  ⟨⟨by decide, by decide⟩,
   C9_encode_dispatch (DynamicImage.luma8 (ImageBuffer.mk 1 1 1 CV_8U [7])) ⟨by decide, by decide⟩⟩

/-- C9 counterexample: the ten 1 x 1 sample images, one per enumerated
variant of the source's match arms and pairwise of distinct variants, are
all encoded successfully, so the encoder succeeds on ten distinct variant
combinations, not nine as the claim counts them. -/
theorem C9_counterexample :
    DynamicImage.samples.length = 10 ∧
    (DynamicImage.samples.map DynamicImage.kindIndex).Nodup ∧
    (DynamicImage.samples.all (fun img => (img.try_to_cv true).isOk)) = true :=
  ⟨rfl, by decide, by decide⟩

/-- C10: under the typed decoders' checked preconditions (well-formed
2-dimensional matrix whose depth matches), the decode helpers never panic:
whenever the contiguous-slice view succeeds its slice has exactly
width * height * channels scalars (so buffer construction from it
succeeds), and the element-wise fallback's reads all succeed, so the helper
returns a buffer for the matching channel count. -/
theorem C10_no_panic (d : Int) (m : Mat) (hwf : m.wf) (hr : 0 ≤ m.rows) (hc : 0 ≤ m.cols)
    (hd : m.depth = d) :
    (∀ s, m.as_slice d = some s → s.length = asU32 m.cols * asU32 m.rows * m.channels) ∧
    (m.channels = 1 →
      (mat_to_image_buffer_gray d m (asU32 m.cols) (asU32 m.rows)).isSome = true) ∧
    (m.channels = 3 →
      (mat_to_image_buffer_rgb d m (asU32 m.cols) (asU32 m.rows)).isSome = true) := by
  obtain ⟨hdims, hrb, hcb, hlenw⟩ := hwf
  refine ⟨?_, ?_, ?_⟩
  · intro s hss
    unfold Mat.as_slice at hss
    by_cases hcont : m.contiguous = true ∧ m.depth = d
    · rw [if_pos hcont] at hss
      injection hss with hss
      rw [← hss, asU32_eq_toNat hc hcb, asU32_eq_toNat hr hrb, hlenw hr]
      ring
    · rw [if_neg hcont] at hss
      exact absurd hss (by simp)
  · intro hch
    rw [asU32_eq_toNat hc hcb, asU32_eq_toNat hr hrb,
        mat_to_image_buffer_gray_eq d m m.cols.toNat m.rows.toNat hch hd (by omega) (by omega)
          (by omega) (by omega) (by rw [hlenw hr, hch])]
    rfl
  · intro hch
    rw [asU32_eq_toNat hc hcb, asU32_eq_toNat hr hrb,
        mat_to_image_buffer_rgb_eq d m m.cols.toNat m.rows.toNat hch hd (by omega) (by omega)
          (by omega) (by omega) (by rw [hlenw hr, hch])]
    rfl

/-- Witness for C10 at a concrete 1 x 1 single-channel 8-bit matrix. -/
theorem C10_no_panic_witness :
    ((Mat.mk 1 1 CV_8U 1 [5] true).wf ∧ 0 ≤ (Mat.mk 1 1 CV_8U 1 [5] true).rows ∧
     0 ≤ (Mat.mk 1 1 CV_8U 1 [5] true).cols ∧ (Mat.mk 1 1 CV_8U 1 [5] true).depth = CV_8U) ∧
    ((∀ s, (Mat.mk 1 1 CV_8U 1 [5] true).as_slice CV_8U = some s →
      s.length = asU32 (Mat.mk 1 1 CV_8U 1 [5] true).cols
        * asU32 (Mat.mk 1 1 CV_8U 1 [5] true).rows * (Mat.mk 1 1 CV_8U 1 [5] true).channels) ∧
     ((Mat.mk 1 1 CV_8U 1 [5] true).channels = 1 →
      (mat_to_image_buffer_gray CV_8U (Mat.mk 1 1 CV_8U 1 [5] true)
        (asU32 (Mat.mk 1 1 CV_8U 1 [5] true).cols)
        (asU32 (Mat.mk 1 1 CV_8U 1 [5] true).rows)).isSome = true) ∧
     ((Mat.mk 1 1 CV_8U 1 [5] true).channels = 3 →
      (mat_to_image_buffer_rgb CV_8U (Mat.mk 1 1 CV_8U 1 [5] true)
        (asU32 (Mat.mk 1 1 CV_8U 1 [5] true).cols)
        (asU32 (Mat.mk 1 1 CV_8U 1 [5] true).rows)).isSome = true)) :=
  ⟨⟨by decide, by decide, by decide, by decide⟩,
   C10_no_panic CV_8U (Mat.mk 1 1 CV_8U 1 [5] true) (by decide) (by decide) (by decide)
     (by decide)⟩
